import Mathlib

/-!
Verification of the surfe/api-examples repository's reconciliation,
candidate-selection, bulk-enrichment submit/poll, and batch-write logic.

Python string dicts are shallowly embedded as ordered association lists
(`Rec`), with `pyGet` for `dict.get(key)` (first matching key, `none` when
absent) and `pyGetD` for `dict.get(key, default)`.  An absent JSON field is
`none`; a field present with the empty string is `some ""` — the two are
distinguished exactly as Python's `dict.get` distinguishes them.
-/

namespace Surfe

/-- A Python `Dict[str, str]` as an ordered association list. -/
abbrev Rec := List (String × String)

/-- Python `d.get(key)`: the value at the first matching key, `none` when absent. -/
def pyGet : Rec → String → Option String
  | [], _ => none
  | (k, v) :: rest, key => if k = key then some v else pyGet rest key

/-- Python `d.get(key, default)` for a string default. -/
def pyGetD (d : Rec) (key dflt : String) : String :=
  (pyGet d key).getD dflt

/-- One entry of the `emails` candidate array of an enriched person
(contact_enrichment.py lines 105-113): each entry carries an `email` and a
`validationStatus`, either possibly absent. -/
structure EmailEntry where
  email : Option String
  validationStatus : Option String
deriving DecidableEq

/-- One entry of the `mobilePhones` candidate array (contact_enrichment.py
lines 115-124): a `mobilePhone` and a `confidenceScore`, either possibly
absent; `x.get("confidenceScore", 0)` treats a missing score as zero. -/
structure PhoneEntry where
  mobilePhone : Option String
  confidenceScore : Option Int
deriving DecidableEq

/-- An enriched person from the bulk-enrichment response: scalar string
fields (firstName, lastName, companyName, companyWebsite, jobTitle,
linkedinUrl, externalID) in `fields`, plus the two candidate arrays. -/
structure EnrichedPerson where
  fields : Rec
  emails : List EmailEntry
  mobilePhones : List PhoneEntry
deriving DecidableEq

/-- The `for email_obj in enriched["emails"]` loop of contact_enrichment.py
lines 108-111: the email (`.get("email", "")`) of the first entry whose
`validationStatus` equals `"VALID"`, or `""` when no such entry exists. -/
def firstValidEmailValue : List EmailEntry → String
  | [] => ""
  | e :: rest =>
    if e.validationStatus = some "VALID" then e.email.getD ""
    else firstValidEmailValue rest

/-- contact_enrichment.py lines 106-113: the extracted email.  When the
candidate list is empty the email stays `""`; otherwise the first-VALID
email is taken, and if that came out falsy (`not email`) the first entry's
email is taken instead. -/
def selectEmail (emails : List EmailEntry) : String :=
  match emails with
  | [] => ""
  | e0 :: rest =>
    if firstValidEmailValue (e0 :: rest) = "" then e0.email.getD ""
    else firstValidEmailValue (e0 :: rest)

/-- The sort key of contact_enrichment.py line 121:
`x.get("confidenceScore", 0)`. -/
def phoneScore (p : PhoneEntry) : Int :=
  p.confidenceScore.getD 0

/-- One insertion step of a stable descending sort by `phoneScore`: the
inserted (originally later) entry goes after every earlier entry with a
score `>` its own is skipped — equal scores keep original order, as
Python's stable `sorted(..., reverse=True)` does. -/
def insertByScoreDesc (p : PhoneEntry) : List PhoneEntry → List PhoneEntry
  | [] => [p]
  | q :: qs =>
    if phoneScore q > phoneScore p then q :: insertByScoreDesc p qs
    else p :: q :: qs

/-- `sorted(enriched["mobilePhones"], key=lambda x: x.get("confidenceScore", 0),
reverse=True)` of contact_enrichment.py lines 119-123: stable descending
insertion sort by confidence score. -/
def sortPhonesDesc : List PhoneEntry → List PhoneEntry
  | [] => []
  | p :: ps => insertByScoreDesc p (sortPhonesDesc ps)

/-- contact_enrichment.py lines 116-124: `""` when the candidate list is
empty, otherwise `sorted_phones[0].get("mobilePhone", "")`. -/
def selectPhone (phones : List PhoneEntry) : String :=
  match sortPhonesDesc phones with
  | [] => ""
  | top :: _ => top.mobilePhone.getD ""

/-- `field_mapping` of determine_update_status (contact_enrichment.py lines
147-154): API field name paired with its CSV column name, in source order. -/
def fieldMapping : List (String × String) :=
  [("firstName", "First Name"),
   ("lastName", "Last Name"),
   ("companyName", "Company Name"),
   ("companyWebsite", "Company Domain"),
   ("jobTitle", "Job Title"),
   ("linkedinUrl", "LinkedIn Profile URL")]

/-- `enriched.get(api_field, original.get(api_field, ""))` of
contact_enrichment.py lines 128-135: the enriched value when the key is
present (even when its value is the empty string), else the original's. -/
def mergedValue (original : Rec) (e : EnrichedPerson) (k : String) : String :=
  (pyGet e.fields k).getD (pyGetD original k "")

/-- The per-field comparison of determine_update_status (lines 166-195):
`some true` when a gap was filled (original empty, enriched non-empty),
`some false` when the field was updated (both non-empty and different),
`none` otherwise.  The email/phone checks (lines 182-195) perform the same
three-way comparison. -/
def classify (origValue newValue : String) : Option Bool :=
  if (origValue = "" ∧ newValue = "") ∨ origValue = newValue then none
  else if origValue = "" ∧ newValue ≠ "" then some true
  else if origValue ≠ "" ∧ newValue ≠ "" ∧ origValue ≠ newValue then some false
  else none

/-- The classifications of the six regular fields, in `field_mapping`
order, each labelled with its CSV column name (lines 166-179). -/
def fieldClassifications (original : Rec) (e : EnrichedPerson) :
    List (String × Option Bool) :=
  fieldMapping.map fun p =>
    (p.2, classify (pyGetD original p.1 "") (pyGetD e.fields p.1 ""))

/-- All classifications in the order the source appends them: the six
regular fields, then the email check against `original.get("email", "")`,
then the phone check against `original.get("phone", "")` (lines 162-195). -/
def allClassifications (original : Rec) (e : EnrichedPerson)
    (email mobilePhone : String) : List (String × Option Bool) :=
  fieldClassifications original e ++
    [("Email Address", classify (pyGetD original "email" "") email),
     ("Mobile Phone Number", classify (pyGetD original "phone" "") mobilePhone)]

/-- The `updates` list built by determine_update_status. -/
def updatedFields (original : Rec) (e : EnrichedPerson)
    (email mobilePhone : String) : List String :=
  (allClassifications original e email mobilePhone).filterMap fun p =>
    if p.2 = some false then some p.1 else none

/-- The `filled_gaps` list built by determine_update_status. -/
def filledFields (original : Rec) (e : EnrichedPerson)
    (email mobilePhone : String) : List String :=
  (allClassifications original e email mobilePhone).filterMap fun p =>
    if p.2 = some true then some p.1 else none

/-- The status string of determine_update_status lines 197-204. -/
def renderStatus (updates filled : List String) : String :=
  if updates ≠ [] ∧ filled ≠ [] then
    "Updated: " ++ String.intercalate ", " updates ++
      "; Filled: " ++ String.intercalate ", " filled
  else if updates ≠ [] then "Updated: " ++ String.intercalate ", " updates
  else if filled ≠ [] then "Filled: " ++ String.intercalate ", " filled
  else "No changes"

/-- determine_update_status (contact_enrichment.py lines 143-204). -/
def determineUpdateStatus (original : Rec) (e : EnrichedPerson)
    (email mobilePhone : String) : String :=
  renderStatus (updatedFields original e email mobilePhone)
    (filledFields original e email mobilePhone)

/-- The `updated` record built for one enriched person by
compare_and_update_data (contact_enrichment.py lines 127-137), with
`original` the record matched by external ID (or `[]` when no match).  The
source computes `email`/`mobile_phone` once before building the dict; the
selections are pure, so repeating them is the same value. -/
def compareAndUpdateOne (original : Rec) (e : EnrichedPerson) : Rec :=
  [("First Name", mergedValue original e "firstName"),
   ("Last Name", mergedValue original e "lastName"),
   ("Company Name", mergedValue original e "companyName"),
   ("Company Domain", mergedValue original e "companyWebsite"),
   ("Email Address", selectEmail e.emails),
   ("Mobile Phone Number", selectPhone e.mobilePhones),
   ("Job Title", mergedValue original e "jobTitle"),
   ("LinkedIn Profile URL", mergedValue original e "linkedinUrl"),
   ("Update Status",
     determineUpdateStatus original e (selectEmail e.emails)
       (selectPhone e.mobilePhones))]

/-- One JSON body fetched from the enrichment status endpoint:
`data.get("status")`, `data.get("people", [])` and
`data.get("error", "Unknown error")` are the only reads the poll loops
perform (core/surfe/service.py lines 102-107, enrichment.py lines 63-69). -/
structure StatusResponse where
  status : Option String
  people : List EnrichedPerson
  error : Option String
deriving DecidableEq

/-- The outcome of SurfeService.poll_enrichment_status: the people list on
`COMPLETED`, the raised message payload (`data.get("error", "Unknown
error")`) on `FAILED`, or the raised timeout after the attempt ceiling. -/
inductive PollResult where
  | completed : List EnrichedPerson → PollResult
  | failed : String → PollResult
  | timedOut : PollResult
deriving DecidableEq

/-- A fetched status that is neither terminal success nor terminal
failure, so the loop sleeps and polls again. -/
def nonTerminal (r : StatusResponse) : Prop :=
  r.status ≠ some "COMPLETED" ∧ r.status ≠ some "FAILED"

instance (r : StatusResponse) : Decidable (nonTerminal r) := by
  unfold nonTerminal; infer_instance

/-- The `while attempts < max_attempts` loop of
SurfeService.poll_enrichment_status (core/surfe/service.py lines 98-113),
with the sequence of remote responses given by `fetch` and `i` the index of
the next fetch.  Besides the result it counts the requests made and the
`time.sleep` calls performed: each non-terminal response sleeps once before
the next attempt, and exhausting the fuel raises the timeout. -/
def pollFrom (fetch : Nat → StatusResponse) (i : Nat) :
    Nat → PollResult × Nat × Nat
  | 0 => (PollResult.timedOut, 0, 0)
  | fuel + 1 =>
    let d := fetch i
    if d.status = some "COMPLETED" then (PollResult.completed d.people, 1, 0)
    else if d.status = some "FAILED" then
      (PollResult.failed (d.error.getD "Unknown error"), 1, 0)
    else
      let r := pollFrom fetch (i + 1) fuel
      (r.1, r.2.1 + 1, r.2.2 + 1)

/-- SurfeService.poll_enrichment_status run from attempt 0:
`(result, number of fetches, number of sleeps)`. -/
def pollEnrichmentStatus (fetch : Nat → StatusResponse) (maxAttempts : Nat) :
    PollResult × Nat × Nat :=
  pollFrom fetch 0 maxAttempts

/-- The `while True` poll loop of enrichment.py lines 61-66: it keeps
fetching while the status equals `IN_PROGRESS` and breaks with the first
response whose status is anything else — including `FAILED`.  The source
loop is unbounded; `fuel` bounds the model, `none` meaning the loop was
still running after `fuel` fetches. -/
def pollUntilNotInProgress (fetch : Nat → StatusResponse) (i : Nat) :
    Nat → Option StatusResponse
  | 0 => none
  | fuel + 1 =>
    let d := fetch i
    if d.status = some "IN_PROGRESS" then
      pollUntilNotInProgress fetch (i + 1) fuel
    else some d

/-- enrichment.py line 69: after the loop the script takes
`results_data.get("people", [])` and proceeds to process it, whatever the
terminal status was. -/
def enrichmentScriptContacts (fetch : Nat → StatusResponse) (fuel : Nat) :
    Option (List EnrichedPerson) :=
  (pollUntilNotInProgress fetch 0 fuel).map StatusResponse.people

/-- The submit response: its HTTP status code and its JSON body, of which
only the job-identifier field is read. -/
structure HttpResponse where
  statusCode : Nat
  body : Rec
deriving DecidableEq

/-- How a submit call ends: the returned job identifier, a raised
request-level error carrying the status code, or a raised error for a body
that lacks the job-identifier field. -/
inductive SubmitResult where
  | accepted : String → SubmitResult
  | requestError : Nat → SubmitResult
  | protocolError : SubmitResult
deriving DecidableEq

/-- start_bulk_enrichment (contact_enrichment.py lines 56-66): raise unless
the status code is 202, then return `response_data["id"]` — a missing `id`
key raises (KeyError). -/
def startBulkEnrichment (resp : HttpResponse) : SubmitResult :=
  if resp.statusCode ≠ 202 then SubmitResult.requestError resp.statusCode
  else
    match pyGet resp.body "id" with
    | some jobId => SubmitResult.accepted jobId
    | none => SubmitResult.protocolError

/-- The module-level submit of enrichment.py lines 42-57: the same two
checks as start_bulk_enrichment (non-202 exits 1; a body without `id`
exits 1; otherwise the id is used), so it is the same function of the
response. -/
def moduleLevelSubmit (resp : HttpResponse) : SubmitResult :=
  startBulkEnrichment resp

/-- SurfeService.start_enrichment (core/surfe/service.py lines 57-78) for a
given version: `response.raise_for_status()` raises exactly for the 4xx/5xx
range, and otherwise `data["enrichmentID"]` (v2) or `data["id"]` (v1) is
returned, a missing key raising (KeyError). -/
def startEnrichment (version : String) (resp : HttpResponse) : SubmitResult :=
  if 400 ≤ resp.statusCode ∧ resp.statusCode < 600 then
    SubmitResult.requestError resp.statusCode
  else
    match pyGet resp.body (if version = "v2" then "enrichmentID" else "id") with
    | some jobId => SubmitResult.accepted jobId
    | none => SubmitResult.protocolError

/-- The per-person body outcome of a batch CRM write: `Except.ok` with the
created data, or `Except.error` with the exception message the `except`
branch catches. -/
abbrev WriteAttempt (α β : Type) := α → Except String β

/-- The deal-creation loop of zoom-webinar-pipedrive-deals/main.py lines
211-283: each person's body runs under `try`; on success the created info
is appended to `created_deals`, on an exception the message is appended to
`failed_creations` and the loop continues with the next person.  Returns
`(created_deals, failed_creations)`. -/
def dealCreationLoop {α β : Type} (attempt : WriteAttempt α β) :
    List α → List β × List String
  | [] => ([], [])
  | p :: rest =>
    match attempt p with
    | Except.ok d =>
      let r := dealCreationLoop attempt rest
      (d :: r.1, r.2)
    | Except.error m =>
      let r := dealCreationLoop attempt rest
      (r.1, m :: r.2)

/-- PipedriveService.create_prospects_from_lookalikes
(core/integrations/pipedrive/service.py lines 308-358): each company's body
runs under `try`; on success the prospect info is appended, on an exception
the message is printed once and discarded (`continue`) — nothing but the
created prospects is returned, and the caller's summary
(pipedrive-lookalike-companies/main.py) prints only counts. -/
def createProspectsFromLookalikes {α β : Type} (attempt : WriteAttempt α β) :
    List α → List β
  | [] => []
  | c :: rest =>
    match attempt c with
    | Except.ok p => p :: createProspectsFromLookalikes attempt rest
    | Except.error _ => createProspectsFromLookalikes attempt rest

/-- The success payload of a write attempt, `none` on failure. -/
def exOk {β : Type} : Except String β → Option β
  | Except.ok b => some b
  | Except.error _ => none

/-- The error message of a write attempt, `none` on success. -/
def exErr {β : Type} : Except String β → Option String
  | Except.ok _ => none
  | Except.error m => some m

/-- The JSON payload of SurfeService.search_company_lookalikes
(core/surfe/service.py lines 132-135). -/
structure LookalikePayload where
  domains : List String
  maxResults : Int
deriving DecidableEq

/-- core/surfe/service.py lines 132-135: `"maxResults": min(max(limit, 1), 10)`. -/
def searchCompanyLookalikesPayload (companyDomains : List String)
    (limit : Int) : LookalikePayload :=
  { domains := companyDomains, maxResults := min (max limit 1) 10 }

/-! Concrete records used by the counterexamples and witnesses below. -/

/-- An original record whose first name is `John`. -/
def johnOriginal : Rec := [("firstName", "John")]

/-- An enriched record carrying `firstName` present but equal to the empty
string, and no candidate arrays. -/
def emptyFirstNameEnriched : EnrichedPerson :=
  { fields := [("firstName", "")], emails := [], mobilePhones := [] }

/-- An original record whose last name is `Doe`. -/
def doeOriginal : Rec := [("lastName", "Doe")]

/-- An enriched record all of whose field values are empty strings (here
one present-but-empty `lastName`) with empty candidate arrays. -/
def emptyLastNameEnriched : EnrichedPerson :=
  { fields := [("lastName", "")], emails := [], mobilePhones := [] }

/-- An enriched record with no fields and no candidates at all. -/
def absentEnriched : EnrichedPerson :=
  { fields := [], emails := [], mobilePhones := [] }

/-- An original record with a first name and a job title. -/
def janeOriginal : Rec := [("firstName", "Jane"), ("jobTitle", "Engineer")]

/-- An enriched record carrying only a differing job title. -/
def ctoEnriched : EnrichedPerson :=
  { fields := [("jobTitle", "CTO")], emails := [], mobilePhones := [] }

/-- A candidate-email list: a `RISKY` entry with a real address first,
then a `VALID` entry whose email is empty. -/
def riskyThenEmptyValidEmails : List EmailEntry :=
  [{ email := some "a@x.com", validationStatus := some "RISKY" },
   { email := some "", validationStatus := some "VALID" }]

/-- The candidate-email list of the spec's example. -/
def riskyThenValidEmails : List EmailEntry :=
  [{ email := some "a@x.com", validationStatus := some "RISKY" },
   { email := some "b@x.com", validationStatus := some "VALID" }]

/-- The candidate-phone list of the spec's example. -/
def twoPhones : List PhoneEntry :=
  [{ mobilePhone := some "111", confidenceScore := some 40 },
   { mobilePhone := some "222", confidenceScore := some 90 }]

/-- A status response that reports terminal failure with an error payload. -/
def failedBoomResponse : StatusResponse :=
  { status := some "FAILED", people := [], error := some "boom" }

/-- A status response still in progress. -/
def inProgressResponse : StatusResponse :=
  { status := some "IN_PROGRESS", people := [], error := none }

/-- A status response that reports completion with an empty people list. -/
def completedResponse : StatusResponse :=
  { status := some "COMPLETED", people := [], error := none }

/-- A status sequence: two in-progress responses, then completion. -/
def fetchCompletedThird (n : Nat) : StatusResponse :=
  if n < 2 then inProgressResponse else completedResponse

/-- A status sequence: one in-progress response, then terminal failure. -/
def fetchFailedSecond (n : Nat) : StatusResponse :=
  if n = 0 then inProgressResponse else failedBoomResponse

/-- A submit response with HTTP status 200 whose body carries the job id. -/
def okTwoHundredResponse : HttpResponse :=
  { statusCode := 200, body := [("id", "job-123")] }

/-- A write attempt that fails on the company `BadCo` and succeeds
elsewhere, returning the record itself as the created data. -/
def attemptFailsOnBadCo : WriteAttempt String String := fun c =>
  if c = "BadCo" then Except.error "Failed to create prospect for BadCo: boom"
  else Except.ok c

/-! Helper lemmas about the merged record and the field classifications. -/

/-- Looking any of the six regular columns up in the merged record gives
the merged value of its API field. -/
theorem merged_lookup_of_mem (o : Rec) (e : EnrichedPerson) (api csv : String)
    (hmem : (api, csv) ∈ fieldMapping) :
    pyGet (compareAndUpdateOne o e) csv = some (mergedValue o e api) := by
  simp only [fieldMapping, List.mem_cons, List.mem_singleton, Prod.mk.injEq,
    List.not_mem_nil, or_false] at hmem
  rcases hmem with ⟨rfl, rfl⟩ | ⟨rfl, rfl⟩ | ⟨rfl, rfl⟩ | ⟨rfl, rfl⟩ |
    ⟨rfl, rfl⟩ | ⟨rfl, rfl⟩ <;> rfl

/-- The merged record's email column is the selected email. -/
theorem merged_lookup_email (o : Rec) (e : EnrichedPerson) :
    pyGet (compareAndUpdateOne o e) "Email Address" =
      some (selectEmail e.emails) := rfl

/-- The merged record's phone column is the selected phone. -/
theorem merged_lookup_phone (o : Rec) (e : EnrichedPerson) :
    pyGet (compareAndUpdateOne o e) "Mobile Phone Number" =
      some (selectPhone e.mobilePhones) := rfl

/-- The merged record's status column. -/
theorem merged_lookup_status (o : Rec) (e : EnrichedPerson) :
    pyGet (compareAndUpdateOne o e) "Update Status" =
      some (determineUpdateStatus o e (selectEmail e.emails)
        (selectPhone e.mobilePhones)) := rfl

/-- An empty original value and a non-empty enriched value classify as a
filled gap. -/
theorem classify_filled {n : String} (h : n ≠ "") : classify "" n = some true := by
  simp [classify, h, Ne.symm h]

/-- Non-empty, differing values classify as an update. -/
theorem classify_updated {o n : String} (ho : o ≠ "") (hn : n ≠ "")
    (hne : o ≠ n) : classify o n = some false := by
  simp [classify, ho, hn, hne]

/-- An empty enriched value never classifies as anything. -/
theorem classify_new_empty (o : String) : classify o "" = none := by
  by_cases h : o = "" <;> simp [classify, h]

/-- When the enriched record lacks the key, the merged value falls back to
the original's. -/
theorem mergedValue_absent {o : Rec} {e : EnrichedPerson} {k : String}
    (h : pyGet e.fields k = none) : mergedValue o e k = pyGetD o k "" := by
  simp [mergedValue, h]

/-- When the enriched value is non-empty, the merged value is the enriched
value. -/
theorem mergedValue_new_nonempty {o : Rec} {e : EnrichedPerson} {k : String}
    (h : pyGetD e.fields k "" ≠ "") :
    mergedValue o e k = pyGetD e.fields k "" := by
  cases hh : pyGet e.fields k with
  | none => exact absurd (by simp [pyGetD, hh]) h
  | some v => simp [mergedValue, pyGetD, hh]

/-- A regular field classified `filled` puts its CSV name in the
`filled_gaps` list. -/
theorem mem_filled_of_classify {o : Rec} {e : EnrichedPerson}
    {em ph api csv : String} (hm : (api, csv) ∈ fieldMapping)
    (hc : classify (pyGetD o api "") (pyGetD e.fields api "") = some true) :
    csv ∈ filledFields o e em ph := by
  unfold filledFields
  refine List.mem_filterMap.mpr ⟨(csv, some true), ?_, by simp⟩
  unfold allClassifications
  refine List.mem_append.mpr (Or.inl ?_)
  unfold fieldClassifications
  exact List.mem_map.mpr ⟨(api, csv), hm, by simp [hc]⟩

/-- A regular field classified `updated` puts its CSV name in the
`updates` list. -/
theorem mem_updated_of_classify {o : Rec} {e : EnrichedPerson}
    {em ph api csv : String} (hm : (api, csv) ∈ fieldMapping)
    (hc : classify (pyGetD o api "") (pyGetD e.fields api "") = some false) :
    csv ∈ updatedFields o e em ph := by
  unfold updatedFields
  refine List.mem_filterMap.mpr ⟨(csv, some false), ?_, by simp⟩
  unfold allClassifications
  refine List.mem_append.mpr (Or.inl ?_)
  unfold fieldClassifications
  exact List.mem_map.mpr ⟨(api, csv), hm, by simp [hc]⟩

/-! Claim C1. -/

/-- C1 counterexample: the enriched record carries `firstName` present but
empty — an "empty" enriched value in the claim's sense — yet the merged
record's First Name becomes the empty string instead of retaining the
original `John`: `dict.get(key, default)` falls back only when the key is
absent, so a present-but-empty enriched value deletes the original data. -/
theorem c1_counterexample :
    pyGet emptyFirstNameEnriched.fields "firstName" = some "" ∧
    pyGet (compareAndUpdateOne johnOriginal emptyFirstNameEnriched)
      "First Name" = some "" ∧
    pyGet johnOriginal "firstName" = some "John" :=
  ⟨rfl, rfl, rfl⟩

/-- C1 (amended): the merged record retains the original field's value
whenever the enriched record's value for that field is absent (a
present-but-empty enriched value overwrites instead), and the Email
Address / Mobile Phone Number columns always carry the enrichment-selected
value — the empty string, not the original's, when no candidates exist. -/
theorem c1_amended_retention (original : Rec) (e : EnrichedPerson) :
    (∀ api csv, (api, csv) ∈ fieldMapping → pyGet e.fields api = none →
      pyGet (compareAndUpdateOne original e) csv =
        some (pyGetD original api "")) ∧
    (e.emails = [] →
      pyGet (compareAndUpdateOne original e) "Email Address" = some "") ∧
    (e.mobilePhones = [] →
      pyGet (compareAndUpdateOne original e) "Mobile Phone Number" =
        some "") := by
  refine ⟨?_, ?_, ?_⟩
  · intro api csv hmem habs
    rw [merged_lookup_of_mem original e api csv hmem, mergedValue_absent habs]
  · intro h
    rw [merged_lookup_email, h]; rfl
  · intro h
    rw [merged_lookup_phone, h]; rfl

/-- C1 witness: a concrete original with a job title, enriched by a record
with no fields and no candidates, keeps its job title and gets empty
email/phone columns. -/
theorem c1_witness :
    pyGet (compareAndUpdateOne janeOriginal absentEnriched) "Job Title" =
      some (pyGetD janeOriginal "jobTitle" "") ∧
    pyGet (compareAndUpdateOne janeOriginal absentEnriched) "Email Address" =
      some "" ∧
    pyGet (compareAndUpdateOne janeOriginal absentEnriched)
      "Mobile Phone Number" = some "" :=
  ⟨(c1_amended_retention janeOriginal absentEnriched).1 "jobTitle"
      "Job Title" (by decide) rfl,
   (c1_amended_retention janeOriginal absentEnriched).2.1 rfl,
   (c1_amended_retention janeOriginal absentEnriched).2.2 rfl⟩

/-! Claim C4. -/

/-- C4: for every tracked regular field, an empty original value with a
non-empty enriched value is classified filled, and non-empty unequal
values are classified updated; in both cases the merged column carries the
enriched value. -/
theorem c4_field_classification (original : Rec) (e : EnrichedPerson)
    (api csv : String) (hmem : (api, csv) ∈ fieldMapping) :
    (pyGetD original api "" = "" → pyGetD e.fields api "" ≠ "" →
      csv ∈ filledFields original e (selectEmail e.emails)
        (selectPhone e.mobilePhones) ∧
      pyGet (compareAndUpdateOne original e) csv =
        some (pyGetD e.fields api "")) ∧
    (pyGetD original api "" ≠ "" → pyGetD e.fields api "" ≠ "" →
      pyGetD original api "" ≠ pyGetD e.fields api "" →
      csv ∈ updatedFields original e (selectEmail e.emails)
        (selectPhone e.mobilePhones) ∧
      pyGet (compareAndUpdateOne original e) csv =
        some (pyGetD e.fields api "")) := by
  constructor
  · intro ho hn
    refine ⟨mem_filled_of_classify hmem ?_, ?_⟩
    · rw [ho]; exact classify_filled hn
    · rw [merged_lookup_of_mem original e api csv hmem,
        mergedValue_new_nonempty hn]
  · intro ho hn hne
    refine ⟨mem_updated_of_classify hmem (classify_updated ho hn hne), ?_⟩
    rw [merged_lookup_of_mem original e api csv hmem,
      mergedValue_new_nonempty hn]

/-- C4 witness: `Engineer` versus enriched `CTO` lands Job Title in the
updates list and the merged column carries `CTO`. -/
theorem c4_witness :
    "Job Title" ∈ updatedFields janeOriginal ctoEnriched
      (selectEmail ctoEnriched.emails) (selectPhone ctoEnriched.mobilePhones) ∧
    pyGet (compareAndUpdateOne janeOriginal ctoEnriched) "Job Title" =
      some (pyGetD ctoEnriched.fields "jobTitle" "") :=
  (c4_field_classification janeOriginal ctoEnriched "jobTitle" "Job Title"
    (by decide)).2 (by decide) (by decide) (by decide)

/-! Claim C8. -/

/-- C8 counterexample: an enriched record every one of whose field values
is empty (a present-but-empty `lastName`) with empty candidate arrays does
not leave the original unchanged — the merged Last Name becomes the empty
string instead of `Doe` — even though the status still reads as if nothing
happened. -/
theorem c8_counterexample :
    pyGet emptyLastNameEnriched.fields "lastName" = some "" ∧
    emptyLastNameEnriched.emails = [] ∧
    emptyLastNameEnriched.mobilePhones = [] ∧
    pyGet (compareAndUpdateOne doeOriginal emptyLastNameEnriched)
      "Last Name" = some "" ∧
    pyGet doeOriginal "lastName" = some "Doe" :=
  ⟨rfl, rfl, rfl, rfl, rfl⟩

/-- Every classification computed against empty email/phone selections and
an enriched record with no fields is `none`. -/
theorem allClassifications_absent_none (original : Rec) (e : EnrichedPerson)
    (hf : ∀ k, pyGet e.fields k = none) :
    ∀ p ∈ allClassifications original e "" "", p.2 = none := by
  intro p hp
  unfold allClassifications at hp
  rcases List.mem_append.mp hp with h1 | h2
  · unfold fieldClassifications at h1
    obtain ⟨q, _, rfl⟩ := List.mem_map.mp h1
    have : pyGetD e.fields q.1 "" = "" := by simp [pyGetD, hf q.1]
    simp [this, classify_new_empty]
  · rcases List.mem_cons.mp h2 with rfl | h3
    · exact classify_new_empty _
    · rcases List.mem_singleton.mp h3 with rfl
      exact classify_new_empty _

/-- C8 (amended): reconciling any original against an enriched record with
no field keys at all and empty candidate arrays keeps every regular column
at the original's value, fills the email and phone columns with the empty
selection, and reports `No changes`.  (The claim's weaker premise —
enriched values merely empty — fails, see the counterexample.) -/
theorem c8_absent_enrichment_noop (original : Rec) (e : EnrichedPerson)
    (hf : ∀ k, pyGet e.fields k = none) (he : e.emails = [])
    (hp : e.mobilePhones = []) :
    (∀ api csv, (api, csv) ∈ fieldMapping →
      pyGet (compareAndUpdateOne original e) csv =
        some (pyGetD original api "")) ∧
    pyGet (compareAndUpdateOne original e) "Email Address" = some "" ∧
    pyGet (compareAndUpdateOne original e) "Mobile Phone Number" = some "" ∧
    pyGet (compareAndUpdateOne original e) "Update Status" =
      some "No changes" := by
  have hsel : selectEmail e.emails = "" := by rw [he]; rfl
  have hselp : selectPhone e.mobilePhones = "" := by rw [hp]; rfl
  have hnone := allClassifications_absent_none original e hf
  have hu : updatedFields original e "" "" = [] := by
    unfold updatedFields
    refine List.filterMap_eq_nil_iff.mpr fun p hp' => ?_
    simp [hnone p hp']
  have hg : filledFields original e "" "" = [] := by
    unfold filledFields
    refine List.filterMap_eq_nil_iff.mpr fun p hp' => ?_
    simp [hnone p hp']
  refine ⟨?_, ?_, ?_, ?_⟩
  · intro api csv hmem
    rw [merged_lookup_of_mem original e api csv hmem,
      mergedValue_absent (hf api)]
  · rw [merged_lookup_email, hsel]
  · rw [merged_lookup_phone, hselp]
  · rw [merged_lookup_status, hsel, hselp]
    unfold determineUpdateStatus
    rw [hu, hg]; rfl

/-- C8 witness: a concrete original reconciled against the enriched record
with no fields reports `No changes`. -/
theorem c8_witness :
    pyGet (compareAndUpdateOne johnOriginal absentEnriched) "Update Status" =
      some "No changes" :=
  (c8_absent_enrichment_noop johnOriginal absentEnriched (fun _ => rfl)
    rfl rfl).2.2.2

/-! Claim C2. -/

/-- The selection on a non-empty candidate list, written out. -/
theorem selectEmail_cons (e0 : EmailEntry) (rest : List EmailEntry) :
    selectEmail (e0 :: rest) =
      if firstValidEmailValue (e0 :: rest) = "" then e0.email.getD ""
      else firstValidEmailValue (e0 :: rest) := rfl

/-- A non-empty first-VALID email value is the email of a `VALID` entry of
the list. -/
theorem firstValidEmailValue_mem (l : List EmailEntry) :
    firstValidEmailValue l ≠ "" →
    ∃ x ∈ l, x.validationStatus = some "VALID" ∧
      x.email.getD "" = firstValidEmailValue l := by
  induction l with
  | nil => intro h; exact absurd rfl h
  | cons e rest ih =>
    intro h
    by_cases hv : e.validationStatus = some "VALID"
    · exact ⟨e, List.mem_cons_self e rest, hv,
        by simp [firstValidEmailValue, hv]⟩
    · have heq : firstValidEmailValue (e :: rest) = firstValidEmailValue rest := by
        simp [firstValidEmailValue, hv]
      rw [heq] at h ⊢
      obtain ⟨x, hx, hxv, hxe⟩ := ih h
      exact ⟨x, List.mem_cons_of_mem e hx, hxv, hxe⟩

/-- C2 counterexample: the list has a `VALID` entry (whose email is empty),
so by the claim the selected email should be that entry's email — the empty
string — but the source's `not email` fallback selects the first entry's
`a@x.com`, the email of a `RISKY` entry. -/
theorem c2_counterexample :
    selectEmail riskyThenEmptyValidEmails = "a@x.com" ∧
    riskyThenEmptyValidEmails.filterMap
      (fun x => if x.validationStatus = some "VALID"
        then some (x.email.getD "") else none) = [""] ∧
    ("a@x.com" : String) ≠ "" :=
  ⟨rfl, rfl, by decide⟩

/-- C2 (amended): on a non-empty candidate list, the selected email is the
email of the first `VALID` entry when that email is non-empty; otherwise —
no `VALID` entry, or the first `VALID` entry's email empty or absent — it
is the email of the first entry in returned order.  The spec's example
still selects `b@x.com`. -/
theorem c2_email_selection (e0 : EmailEntry) (rest : List EmailEntry) :
    (firstValidEmailValue (e0 :: rest) ≠ "" →
      ∃ x ∈ e0 :: rest, x.validationStatus = some "VALID" ∧
        selectEmail (e0 :: rest) = x.email.getD "") ∧
    (firstValidEmailValue (e0 :: rest) = "" →
      selectEmail (e0 :: rest) = e0.email.getD "") ∧
    selectEmail riskyThenValidEmails = "b@x.com" := by
  refine ⟨?_, ?_, rfl⟩
  · intro h
    obtain ⟨x, hx, hv, he⟩ := firstValidEmailValue_mem (e0 :: rest) h
    exact ⟨x, hx, hv, by rw [selectEmail_cons, if_neg h, ← he]⟩
  · intro h
    rw [selectEmail_cons, if_pos h]

/-- C2 witness: a single `RISKY` candidate has no `VALID` entry, so the
first entry's email is selected. -/
theorem c2_witness :
    selectEmail [{ email := some "c@x.com", validationStatus := some "RISKY" }] =
      "c@x.com" :=
  (c2_email_selection
    { email := some "c@x.com", validationStatus := some "RISKY" } []).2.1 rfl

/-! Claim C3. -/

/-- The head of the stable descending sort is a list member of maximal
confidence score. -/
theorem sortPhonesDesc_spec (l : List PhoneEntry) :
    l ≠ [] → ∃ x ∈ l, (∃ tl, sortPhonesDesc l = x :: tl) ∧
      ∀ y ∈ l, phoneScore y ≤ phoneScore x := by
  induction l with
  | nil => intro h; exact absurd rfl h
  | cons p ps ih =>
    intro _
    rcases eq_or_ne ps [] with rfl | hne
    · refine ⟨p, List.mem_cons_self p [], ⟨[], rfl⟩, ?_⟩
      intro y hy
      rcases List.mem_singleton.mp hy with rfl
      exact le_refl _
    · obtain ⟨x, hx, ⟨tl, htl⟩, hmax⟩ := ih hne
      have hsort : sortPhonesDesc (p :: ps) = insertByScoreDesc p (x :: tl) := by
        simp [sortPhonesDesc, htl]
      by_cases hgt : phoneScore x > phoneScore p
      · refine ⟨x, List.mem_cons_of_mem p hx, ⟨insertByScoreDesc p tl, ?_⟩, ?_⟩
        · rw [hsort]; simp [insertByScoreDesc, hgt]
        · intro y hy
          rcases List.mem_cons.mp hy with rfl | hy'
          · exact le_of_lt hgt
          · exact hmax y hy'
      · refine ⟨p, List.mem_cons_self p ps, ⟨x :: tl, ?_⟩, ?_⟩
        · rw [hsort]; simp [insertByScoreDesc, hgt]
        · intro y hy
          rcases List.mem_cons.mp hy with rfl | hy'
          · exact le_refl _
          · exact le_trans (hmax y hy') (not_lt.mp hgt)

/-- C3: on a non-empty candidate list the selected phone is the
`mobilePhone` of an entry of maximal confidence score (missing scores count
as zero), and the spec's example selects `222`. -/
theorem c3_phone_selection (p0 : PhoneEntry) (rest : List PhoneEntry) :
    (∃ x ∈ p0 :: rest, selectPhone (p0 :: rest) = x.mobilePhone.getD "" ∧
      ∀ y ∈ p0 :: rest, phoneScore y ≤ phoneScore x) ∧
    selectPhone twoPhones = "222" := by
  refine ⟨?_, rfl⟩
  obtain ⟨x, hx, ⟨tl, htl⟩, hmax⟩ :=
    sortPhonesDesc_spec (p0 :: rest) (List.cons_ne_nil p0 rest)
  refine ⟨x, hx, ?_, hmax⟩
  unfold selectPhone
  rw [htl]

/-! Helper lemmas for the two poll loops. -/

/-- If the fetch at offset `k` completes and every earlier one is
non-terminal, the bounded loop returns that fetch's people after `k + 1`
requests and `k` sleeps. -/
theorem pollFrom_completed (fetch : Nat → StatusResponse) :
    ∀ (fuel k i : Nat), k < fuel → (fetch (i + k)).status = some "COMPLETED" →
    (∀ j, j < k → nonTerminal (fetch (i + j))) →
    pollFrom fetch i fuel =
      (PollResult.completed (fetch (i + k)).people, k + 1, k) := by
  intro fuel
  induction fuel with
  | zero => intro k i hk; exact absurd hk (Nat.not_lt_zero k)
  | succ n ihn =>
    intro k i hk hc hnt
    cases k with
    | zero =>
      have hc0 : (fetch i).status = some "COMPLETED" := by simpa using hc
      simp [pollFrom, hc0]
    | succ k' =>
      obtain ⟨hnc, hnf⟩ : nonTerminal (fetch i) := by
        simpa using hnt 0 (Nat.succ_pos k')
      have harg : i + 1 + k' = i + (k' + 1) := by omega
      have hrec : pollFrom fetch (i + 1) n =
          (PollResult.completed (fetch (i + (k' + 1))).people, k' + 1, k') := by
        rw [← harg]
        apply ihn k' (i + 1) (Nat.lt_of_succ_lt_succ hk)
        · rw [harg]; exact hc
        · intro j hj
          have hj' : i + 1 + j = i + (j + 1) := by omega
          rw [hj']
          exact hnt (j + 1) (Nat.succ_lt_succ hj)
      simp [pollFrom, hnc, hnf, hrec]

/-- If the fetch at offset `k` fails and every earlier one is non-terminal,
the bounded loop raises with that fetch's error payload after `k + 1`
requests and `k` sleeps. -/
theorem pollFrom_failed (fetch : Nat → StatusResponse) :
    ∀ (fuel k i : Nat), k < fuel → (fetch (i + k)).status = some "FAILED" →
    (∀ j, j < k → nonTerminal (fetch (i + j))) →
    pollFrom fetch i fuel =
      (PollResult.failed ((fetch (i + k)).error.getD "Unknown error"),
        k + 1, k) := by
  intro fuel
  induction fuel with
  | zero => intro k i hk; exact absurd hk (Nat.not_lt_zero k)
  | succ n ihn =>
    intro k i hk hf hnt
    cases k with
    | zero =>
      have hf0 : (fetch i).status = some "FAILED" := by simpa using hf
      have hnc : (fetch i).status ≠ some "COMPLETED" := by
        rw [hf0]; decide
      simp [pollFrom, hnc, hf0]
    | succ k' =>
      obtain ⟨hnc, hnf⟩ : nonTerminal (fetch i) := by
        simpa using hnt 0 (Nat.succ_pos k')
      have harg : i + 1 + k' = i + (k' + 1) := by omega
      have hrec : pollFrom fetch (i + 1) n =
          (PollResult.failed ((fetch (i + (k' + 1))).error.getD
            "Unknown error"), k' + 1, k') := by
        rw [← harg]
        apply ihn k' (i + 1) (Nat.lt_of_succ_lt_succ hk)
        · rw [harg]; exact hf
        · intro j hj
          have hj' : i + 1 + j = i + (j + 1) := by omega
          rw [hj']
          exact hnt (j + 1) (Nat.succ_lt_succ hj)
      simp [pollFrom, hnc, hnf, hrec]

/-- If every fetch within the fuel is non-terminal, the bounded loop raises
the timeout after exactly `fuel` requests and `fuel` sleeps. -/
theorem pollFrom_timeout (fetch : Nat → StatusResponse) :
    ∀ (fuel i : Nat), (∀ j, j < fuel → nonTerminal (fetch (i + j))) →
    pollFrom fetch i fuel = (PollResult.timedOut, fuel, fuel) := by
  intro fuel
  induction fuel with
  | zero => intro i _; rfl
  | succ n ihn =>
    intro i hnt
    obtain ⟨hnc, hnf⟩ : nonTerminal (fetch i) := by
      simpa using hnt 0 (Nat.succ_pos n)
    have hrec : pollFrom fetch (i + 1) n = (PollResult.timedOut, n, n) := by
      apply ihn (i + 1)
      intro j hj
      have hj' : i + 1 + j = i + (j + 1) := by omega
      rw [hj']
      exact hnt (j + 1) (Nat.succ_lt_succ hj)
    simp [pollFrom, hnc, hnf, hrec]

/-- The bounded loop never makes more requests than its fuel. -/
theorem pollFrom_fetches_le (fetch : Nat → StatusResponse) :
    ∀ (fuel i : Nat), (pollFrom fetch i fuel).2.1 ≤ fuel := by
  intro fuel
  induction fuel with
  | zero => intro i; exact Nat.le_refl 0
  | succ n ihn =>
    intro i
    by_cases h1 : (fetch i).status = some "COMPLETED"
    · simp [pollFrom, h1]
    · by_cases h2 : (fetch i).status = some "FAILED"
      · simp [pollFrom, h1, h2]
      · have heq : pollFrom fetch i (n + 1) =
            ((pollFrom fetch (i + 1) n).1,
             (pollFrom fetch (i + 1) n).2.1 + 1,
             (pollFrom fetch (i + 1) n).2.2 + 1) := by
          simp [pollFrom, h1, h2]
        rw [heq]
        exact Nat.succ_le_succ (ihn (i + 1))

/-- The unbounded loop of enrichment.py stops with the first response whose
status is not `IN_PROGRESS`. -/
theorem pollUntil_spec (fetch : Nat → StatusResponse) :
    ∀ (fuel k i : Nat), k < fuel →
    (∀ j, j < k → (fetch (i + j)).status = some "IN_PROGRESS") →
    (fetch (i + k)).status ≠ some "IN_PROGRESS" →
    pollUntilNotInProgress fetch i fuel = some (fetch (i + k)) := by
  intro fuel
  induction fuel with
  | zero => intro k i hk; exact absurd hk (Nat.not_lt_zero k)
  | succ n ihn =>
    intro k i hk hprog hstop
    cases k with
    | zero =>
      have h0 : (fetch i).status ≠ some "IN_PROGRESS" := by simpa using hstop
      simp [pollUntilNotInProgress, h0]
    | succ k' =>
      have h0 : (fetch i).status = some "IN_PROGRESS" := by
        simpa using hprog 0 (Nat.succ_pos k')
      have harg : i + 1 + k' = i + (k' + 1) := by omega
      have hrec : pollUntilNotInProgress fetch (i + 1) n =
          some (fetch (i + (k' + 1))) := by
        rw [← harg]
        apply ihn k' (i + 1) (Nat.lt_of_succ_lt_succ hk)
        · intro j hj
          have hj' : i + 1 + j = i + (j + 1) := by omega
          rw [hj']
          exact hprog (j + 1) (Nat.succ_lt_succ hj)
        · rw [harg]; exact hstop
      simp [pollUntilNotInProgress, h0, hrec]

/-! Claim C5. -/

/-- C5: the bounded poll loop of SurfeService.poll_enrichment_status makes
at most `maxAttempts` requests; a completion at (0-indexed) fetch `k`
returns the enriched people after exactly `k` sleeps (so the `k+1`-th
fetch succeeds after `k` sleep intervals), and an all-non-terminal
sequence raises the timeout after exactly `maxAttempts` fetches. -/
theorem c5_poll_bounded (fetch : Nat → StatusResponse) (maxAttempts k : Nat) :
    (k < maxAttempts → (fetch k).status = some "COMPLETED" →
      (∀ j, j < k → nonTerminal (fetch j)) →
      pollEnrichmentStatus fetch maxAttempts =
        (PollResult.completed (fetch k).people, k + 1, k)) ∧
    ((∀ j, j < maxAttempts → nonTerminal (fetch j)) →
      pollEnrichmentStatus fetch maxAttempts =
        (PollResult.timedOut, maxAttempts, maxAttempts)) ∧
    (pollEnrichmentStatus fetch maxAttempts).2.1 ≤ maxAttempts := by
  refine ⟨?_, ?_, ?_⟩
  · intro hk hc hnt
    have h := pollFrom_completed fetch maxAttempts k 0 hk
      (by simpa using hc) (fun j hj => by simpa using hnt j hj)
    simpa [pollEnrichmentStatus] using h
  · intro hnt
    have h := pollFrom_timeout fetch maxAttempts 0
      (fun j hj => by simpa using hnt j hj)
    simpa [pollEnrichmentStatus] using h
  · exact pollFrom_fetches_le fetch maxAttempts 0

/-- C5 witness: the sequence in-progress, in-progress, completed returns
the payload at the third fetch, after exactly two sleeps, within a bound
of five attempts. -/
theorem c5_witness :
    pollEnrichmentStatus fetchCompletedThird 5 =
      (PollResult.completed [], 3, 2) :=
  (c5_poll_bounded fetchCompletedThird 5 2).1 (by decide) (by decide)
    (by decide)

/-! Claim C6. -/

/-- C6 counterexample: on a status sequence whose first response is
`FAILED` with an error payload, the module-level poll loop of enrichment.py
does not raise — it leaves the loop and hands the script the response's
people list (`some []` here), silently continuing past the failure. -/
theorem c6_counterexample :
    failedBoomResponse.status = some "FAILED" ∧
    failedBoomResponse.error = some "boom" ∧
    enrichmentScriptContacts (fun _ => failedBoomResponse) 5 = some [] :=
  ⟨rfl, rfl, rfl⟩

/-- C6 (amended): a `FAILED` status before completion makes
SurfeService.poll_enrichment_status raise `EnrichmentFailed` with the
remote error payload; the module-level loop of enrichment.py, by contrast,
stops polling at the first non-`IN_PROGRESS` status and proceeds with the
response's people list instead of raising. -/
theorem c6_failed_handling (fetch : Nat → StatusResponse)
    (maxAttempts k fuel : Nat) :
    (k < maxAttempts → (fetch k).status = some "FAILED" →
      (∀ j, j < k → nonTerminal (fetch j)) →
      pollEnrichmentStatus fetch maxAttempts =
        (PollResult.failed ((fetch k).error.getD "Unknown error"),
          k + 1, k)) ∧
    (k < fuel → (fetch k).status = some "FAILED" →
      (∀ j, j < k → (fetch j).status = some "IN_PROGRESS") →
      enrichmentScriptContacts fetch fuel = some (fetch k).people) := by
  constructor
  · intro hk hf hnt
    have h := pollFrom_failed fetch maxAttempts k 0 hk
      (by simpa using hf) (fun j hj => by simpa using hnt j hj)
    simpa [pollEnrichmentStatus] using h
  · intro hk hf hprog
    have hstop : (fetch (0 + k)).status ≠ some "IN_PROGRESS" := by
      simpa using fun h => by rw [hf] at h; exact absurd h (by decide)
    have h := pollUntil_spec fetch fuel k 0 hk
      (fun j hj => by simpa using hprog j hj) hstop
    unfold enrichmentScriptContacts
    rw [h]
    simp

/-- C6 witness: in-progress then failed raises with the payload `boom` in
the bounded loop, while the module-level loop returns the failed
response's empty people list. -/
theorem c6_witness :
    pollEnrichmentStatus fetchFailedSecond 3 =
      (PollResult.failed "boom", 2, 1) ∧
    enrichmentScriptContacts fetchFailedSecond 5 = some [] :=
  ⟨(c6_failed_handling fetchFailedSecond 3 1 5).1 (by decide) (by decide)
      (by decide),
   (c6_failed_handling fetchFailedSecond 3 1 5).2 (by decide) (by decide)
      (by decide)⟩

/-! Claim C7. -/

/-- C7 counterexample: a response with HTTP status 200 — not the accepted
202 — whose body carries the id makes SurfeService.start_enrichment return
the job identifier instead of failing with a request error, because
`raise_for_status` only raises for the 4xx/5xx range. -/
theorem c7_counterexample :
    okTwoHundredResponse.statusCode = 200 ∧
    startEnrichment "v1" okTwoHundredResponse =
      SubmitResult.accepted "job-123" :=
  ⟨rfl, rfl⟩

/-- C7 (amended): contact_enrichment's start_bulk_enrichment and the
module-level submit fail with a request error on every non-202 status and
with a protocol error on a missing id, returning the id otherwise;
SurfeService.start_enrichment raises the request error only for 4xx/5xx
statuses, so any other status proceeds to extract the job identifier
(failing only when the id field is absent). -/
theorem c7_submit_errors (resp : HttpResponse) :
    moduleLevelSubmit resp = startBulkEnrichment resp ∧
    (resp.statusCode ≠ 202 →
      startBulkEnrichment resp = SubmitResult.requestError resp.statusCode) ∧
    (resp.statusCode = 202 → pyGet resp.body "id" = none →
      startBulkEnrichment resp = SubmitResult.protocolError) ∧
    (∀ jobId, resp.statusCode = 202 → pyGet resp.body "id" = some jobId →
      startBulkEnrichment resp = SubmitResult.accepted jobId) ∧
    (400 ≤ resp.statusCode → resp.statusCode < 600 →
      startEnrichment "v1" resp = SubmitResult.requestError resp.statusCode) ∧
    (resp.statusCode < 400 → pyGet resp.body "id" = none →
      startEnrichment "v1" resp = SubmitResult.protocolError) ∧
    (∀ jobId, resp.statusCode < 400 → pyGet resp.body "id" = some jobId →
      startEnrichment "v1" resp = SubmitResult.accepted jobId) := by
  have hver : ¬(("v1" : String) = "v2") := by decide
  refine ⟨rfl, ?_, ?_, ?_, ?_, ?_, ?_⟩
  · intro h; simp [startBulkEnrichment, h]
  · intro h hid; simp [startBulkEnrichment, h, hid]
  · intro jobId h hid; simp [startBulkEnrichment, h, hid]
  · intro h1 h2; simp [startEnrichment, h1, h2]
  · intro h hid
    have hne : ¬(400 ≤ resp.statusCode ∧ resp.statusCode < 600) := by omega
    simp [startEnrichment, hne, hver, hid]
  · intro jobId h hid
    have hne : ¬(400 ≤ resp.statusCode ∧ resp.statusCode < 600) := by omega
    simp [startEnrichment, hne, hver, hid]

/-- C7 witness: a 500 response makes start_bulk_enrichment raise the
request error. -/
theorem c7_witness :
    startBulkEnrichment { statusCode := 500, body := [] } =
      SubmitResult.requestError 500 :=
  (c7_submit_errors { statusCode := 500, body := [] }).2.1 (by decide)

/-! Claim C9. -/

/-- The deal-creation loop collects exactly the per-record successes and
the per-record error messages, in order. -/
theorem dealCreationLoop_filterMap {α β : Type} (attempt : WriteAttempt α β) :
    ∀ records : List α, dealCreationLoop attempt records =
      (records.filterMap fun r => exOk (attempt r),
       records.filterMap fun r => exErr (attempt r)) := by
  intro records
  induction records with
  | nil => rfl
  | cons p rest ih =>
    cases h : attempt p with
    | ok d => simp [dealCreationLoop, h, ih, exOk, exErr]
    | error m => simp [dealCreationLoop, h, ih, exOk, exErr]

/-- The prospects loop collects exactly the per-record successes — failing
records are skipped and their messages appear nowhere in the result. -/
theorem createProspects_filterMap {α β : Type} (attempt : WriteAttempt α β) :
    ∀ records : List α, createProspectsFromLookalikes attempt records =
      records.filterMap fun r => exOk (attempt r) := by
  intro records
  induction records with
  | nil => rfl
  | cons c rest ih =>
    cases h : attempt c with
    | ok p => simp [createProspectsFromLookalikes, h, ih, exOk]
    | error m => simp [createProspectsFromLookalikes, h, ih, exOk]

/-- C9 counterexample: the prospects loop does catch the failure on
`BadCo` and still processes `OtherCo`, but its entire run result is the
created list — the caught error message is printed transiently and is
appended to no collected list reported at the end of the run. -/
theorem c9_counterexample :
    attemptFailsOnBadCo "BadCo" =
      Except.error "Failed to create prospect for BadCo: boom" ∧
    createProspectsFromLookalikes attemptFailsOnBadCo
      ["GoodCo", "BadCo", "OtherCo"] = ["GoodCo", "OtherCo"] :=
  ⟨rfl, rfl⟩

/-- C9 (amended): every batch CRM write loop catches a per-record failure
and continues with the remaining records — each record's contribution
depends only on its own outcome; the zoom-webinar-pipedrive-deals main
loop additionally collects every error message into `failed_creations`
(reported in its end-of-run summary), whereas
create_prospects_from_lookalikes only returns the created prospects and
collects no messages. -/
theorem c9_batch_write_isolation {α β : Type} (attempt : WriteAttempt α β)
    (records : List α) :
    dealCreationLoop attempt records =
      (records.filterMap fun r => exOk (attempt r),
       records.filterMap fun r => exErr (attempt r)) ∧
    createProspectsFromLookalikes attempt records =
      records.filterMap fun r => exOk (attempt r) :=
  ⟨dealCreationLoop_filterMap attempt records,
   createProspects_filterMap attempt records⟩

/-! Claim C10. -/

/-- C10: the maxResults sent by search_company_lookalikes equals
`min(max(limit, 1), 10)`, always lies in `[1, 10]`, caps every limit above
10 (including the documented range up to 200) at 10, and raises a
non-positive limit to 1. -/
theorem c10_lookalike_max_results (domains : List String) (limit : Int) :
    (searchCompanyLookalikesPayload domains limit).maxResults =
      min (max limit 1) 10 ∧
    1 ≤ (searchCompanyLookalikesPayload domains limit).maxResults ∧
    (searchCompanyLookalikesPayload domains limit).maxResults ≤ 10 ∧
    (10 < limit →
      (searchCompanyLookalikesPayload domains limit).maxResults = 10) ∧
    (limit ≤ 0 →
      (searchCompanyLookalikesPayload domains limit).maxResults = 1) := by
  unfold searchCompanyLookalikesPayload
  refine ⟨rfl, ?_, ?_, ?_, ?_⟩ <;> simp <;> omega

/-- C10 witness: the documented maximum 200 is silently reduced to 10. -/
theorem c10_witness :
    (searchCompanyLookalikesPayload [] 200).maxResults = 10 :=
  (c10_lookalike_max_results [] 200).2.2.2.1 (by decide)

end Surfe
